import Mathlib

/-!
Verification of the core of the wjh_ipc library: the cross-process atomic
cell (`Atomic<T>`), the extended process identifier (`ProcessId`), and the
robust process mutex (`ProcessIdLock`).

The C++ sources are shallowly embedded:

* machine integers become `Nat` with explicit `% 2^w` at the points where
  the C++ code converts or overflows; `pid_t` and `time_t` values are
  `Int` (the C++ types are signed);
* the packed `ProcessId::Value` is modelled at both possible widths,
  `uint64` (`W = 32`) and `__uint128_t` (`W = 64`), since the width is a
  compile-time platform choice;
* the OS start-time lookup is a parameter `st : Int → Option Timeval`
  (the anonymous-namespace `start_time_of`), and the Linux `/proc` probe
  is embedded at field granularity over the whitespace-separated fields
  of `/proc/<pid>/stat`;
* the atomic lock cell is operated on by a sequential state-threaded
  rendering of `ProcessIdLock`: each `compare_exchange_strong` is the
  function `cas` below, and the cell value is threaded through the
  operations in program order;
* `throw std::runtime_error(msg)` becomes `Except.error msg`, an assert
  becomes a returned `Bool`/`Option` that records whether the asserted
  condition held.
-/

namespace WjhIpc

/-- The six values of `std::memory_order`. -/
inductive MemoryOrder where
  | relaxed
  | consume
  | acquire
  | release
  | acq_rel
  | seq_cst
deriving DecidableEq

/-- `atomic_detail::native_order<Orders...>(order)`: the template
parameter pack becomes a list; the result records whether the
`assert(((static_cast<Order>(order) == Orders) || ...))` holds. -/
def native_order_check (allowed : List MemoryOrder) (o : MemoryOrder) : Bool :=
  decide (o ∈ allowed)

/-- The ordering assertion executed by `Atomic<T>::store(v, order)`
(src/src/wjh/Atomic.hpp:129-151).  The fundamental-type branch calls
`native_order<__ATOMIC_RELAXED, __ATOMIC_RELEASE, __ATOMIC_SEQ_CST>`,
the non-fundamental branch calls
`native_order<__ATOMIC_RELAXED, __ATOMIC_ACQUIRE, __ATOMIC_CONSUME,
__ATOMIC_SEQ_CST>`. -/
def store_assert (fundamental : Bool) (o : MemoryOrder) : Bool :=
  if fundamental then
    native_order_check [.relaxed, .release, .seq_cst] o
  else
    native_order_check [.relaxed, .acquire, .consume, .seq_cst] o

/-- `Atomic<T>::store(v, order)`: `some v` when the ordering assertion
holds and the cell now contains `v`; `none` when the assertion fires. -/
def Atomic_store (fundamental : Bool) (v : Nat) (o : MemoryOrder) : Option Nat :=
  if store_assert fundamental o then some v else none

/-- `struct timeval`: `tv_sec : time_t`, `tv_usec : suseconds_t`
(both signed). -/
structure Timeval where
  tv_sec : Int
  tv_usec : Int
deriving DecidableEq

/-- `epoch` constant of ProcessId.cpp: 2024-01-01 00:00:00 UTC. -/
def epoch : Nat := 1704067200

/-- Conversion to `std::uint32_t` (C++ integer conversion: reduce
modulo `2^32`). -/
def u32 (n : Int) : Nat := (n % (2 ^ 32 : Int)).toNat

/-- Conversion to `std::uint64_t`. -/
def u64i (n : Int) : Nat := (n % (2 ^ 64 : Int)).toNat

/-- Conversion to `__uint128_t`. -/
def u128i (n : Int) : Nat := (n % (2 ^ 128 : Int)).toNat

/-- `static_cast<pid_t>` from an unsigned value: truncate to 32 bits
and reinterpret as a signed `int32`. -/
def toInt32 (n : Nat) : Int :=
  if n % 2 ^ 32 < 2 ^ 31 then (n % 2 ^ 32 : Nat) else (n % 2 ^ 32 : Nat) - 2 ^ 32

/-- `value_from<std::uint64_t>(pid, tv)` on a present optional:
`(ValueT(pid) << 32) | std::uint32_t(tv->tv_sec - epoch)`. -/
def value_from_u64 (pid : Int) (tv : Timeval) : Nat :=
  (u64i pid <<< 32) % 2 ^ 64 ||| u32 (tv.tv_sec - (epoch : Int))

/-- `value_from<__uint128_t>(pid, tv)` on a present optional:
`(ValueT(pid) << 64) | (1'000'000ul * uint64_t(tv->tv_sec) +
uint64_t(tv->tv_usec))`; the low half is computed in `uint64`
arithmetic, hence the `% 2^64`. -/
def value_from_u128 (pid : Int) (tv : Timeval) : Nat :=
  (u128i pid <<< 64) % 2 ^ 128 |||
    (1000000 * u64i tv.tv_sec + u64i tv.tv_usec) % 2 ^ 64

/-- `ProcessId::pid()` for the 64-bit layout:
`static_cast<pid_t>(value_ >> 32)`. -/
def pid_u64 (v : Nat) : Int := toInt32 (v >>> 32)

/-- `ProcessId::pid()` for the 128-bit layout:
`static_cast<pid_t>(value_ >> 64)`. -/
def pid_u128 (v : Nat) : Int := toInt32 (v >>> 64)

/-- `ProcessId::start_time()` for the 64-bit layout: `ticks =
uint32_t(value_)`; `tv_sec = time_t(epoch + ticks)` (`uint32`
addition, so modulo `2^32`), `tv_usec = 0`. -/
def start_time_u64 (v : Nat) : Timeval :=
  ⟨((epoch + v % 2 ^ 32) % 2 ^ 32 : Nat), 0⟩

/-- `ProcessId::start_time()` for the 128-bit layout: `ticks =
uint64_t(value_)`; seconds and microseconds recovered by division. -/
def start_time_u128 (v : Nat) : Timeval :=
  ⟨((v % 2 ^ 64) / 1000000 : Nat), ((v % 2 ^ 64) % 1000000 : Nat)⟩

/-- `ProcessId::null()`: value-initialization, all-zero bytes. -/
def ProcessId_null : Nat := 0

/-- The error branch of `value_from`: builds the `std::runtime_error`
message via `strm << "can't get process start time: pid=" << pid` and,
when `errno` was nonzero, `<< ": " << strerror(errno)`.  `errno` is
modelled as `Option String` (`none` = 0, `some e` = the system error
text).  `enc` is the width-specific packing arm of `value_from`. -/
def value_from_or_error (enc : Int → Timeval → Nat) (errno : Option String)
    (pid : Int) (tv? : Option Timeval) : Except String Nat :=
  match tv? with
  | none =>
    Except.error
      ("can\x27t get process start time: pid=" ++ toString pid ++
        (match errno with
          | some e => ": " ++ e
          | none => ""))
  | some tv => Except.ok (enc pid tv)

/-- `ProcessId::maybe(pid)`: empty when `start_time_of(pid)` is empty,
otherwise the packed value (the call into `value_from` happens with a
present optional, so the throwing branch is unreachable and `maybe`
never throws). -/
def ProcessId_maybe (enc : Int → Timeval → Nat) (st : Int → Option Timeval)
    (pid : Int) : Option Nat :=
  match st pid with
  | some tv => some (enc pid tv)
  | none => none

/-- The bare-PID constructor `ProcessId::ProcessId(pid_t)`:
`value_(value_from<Value>(pid, start_time_of(pid)))`, which throws
exactly when the lookup returned nothing. -/
def ProcessId_ctor (enc : Int → Timeval → Nat) (st : Int → Option Timeval)
    (errno : Option String) (pid : Int) : Except String Nat :=
  value_from_or_error enc errno pid (st pid)

/-- Digit-string value, as accumulated by `sscanf`'s `%llu`. -/
def digits_to_nat (cs : List Char) : Nat :=
  cs.foldl (fun n c => n * 10 + (c.toNat - 48)) 0

/-- A `%llu` conversion applied to one whitespace-separated token. -/
def parse_llu (s : String) : Option Nat :=
  if s.data ≠ [] ∧ s.data.all (fun c => c.isDigit) then
    some (digits_to_nat s.data)
  else none

/-- The `sscanf` of the async-signal-safe Linux `start_time_of`: the
format string `"%*d (%*[^)]) %c %*d ... %llu"` skips fields 1-2, reads
the state character from field #3, skips fields 4-21, and reads the
start time from field #22.  The stat line is embedded at field
granularity: `fields` is the list of fields of `/proc/<pid>/stat`
(1-indexed in proc(5), 0-indexed here), so the state is the head
character of `fields[2]` and the tick count is `fields[21]`. -/
def scan_stat (fields : List String) : Option (Char × Nat) :=
  match fields[2]? with
  | none => none
  | some st =>
    match st.data with
    | [] => none
    | c :: _ =>
      match fields[21]? with
      | none => none
      | some tok =>
        match parse_llu tok with
        | none => none
        | some n => some (c, n)

/-- The async-signal-safe Linux `start_time_of` body applied to the
contents of `/proc/<pid>/stat` (src/unnamed/part_001:285-336): parse
state and start-time; report nothing for the Zombie (`Z`) and Dead
(`X`, `x`) states; convert ticks to seconds/microseconds with
`sysconf(_SC_CLK_TCK)` (`hz? = none` models the `-1` failure return)
and add the cached boot time. -/
def start_time_of_stat (fields : List String) (hz? : Option Nat)
    (boot_time : Int) : Option Timeval :=
  match scan_stat fields with
  | none => none
  | some (state, ticks) =>
    if state = 'Z' ∨ state = 'X' ∨ state = 'x' then none
    else
      match hz? with
      | none => none
      | some hz =>
        some ⟨(ticks / hz : Nat) + boot_time, ((ticks % hz) * (1000000 / hz) : Nat)⟩

/-- One `Atomic<ProcessId>::compare_exchange_strong(expected, desired)`
(`ProcessIdLock::exchange`): on the current cell value `cell`, with the
caller's `expected` and `desired`.  Returns (success, new cell value,
new value of the by-reference `expected`): on failure `expected` is
overwritten with the observed value. -/
def cas (cell expected desired : Nat) : Bool × Nat × Nat :=
  if cell = expected then (true, desired, expected) else (false, cell, cell)

/-- `ProcessIdLock::try_lock_impl(me)` (src/unnamed/part_000:340-372),
sequential state-threaded rendering: the cell value observed by each
atomic operation is the value left by the previous one.  `pidOf`
models `ProcessId::pid()` on the packed value, `probe` models
`ProcessId::maybe`.  Returns (result, final cell value). -/
def try_lock_impl (pidOf : Nat → Int) (probe : Int → Option Nat)
    (me cell : Nat) : Bool × Nat :=
  let r1 := cas cell 0 me
  if r1.1 then
    (true, r1.2.1)
  else
    let cell1 := r1.2.1
    let expected1 := r1.2.2
    if expected1 = me then
      (false, cell1)
    else
      let p := probe (pidOf expected1)
      if p = none ∨ p ≠ some expected1 then
        let r2 := cas cell1 expected1 0
        let r3 := cas r2.2.1 0 me
        (r3.1, r3.2.1)
      else
        (false, cell1)

/-- `ProcessIdLock::try_lock()`: `try_lock_impl(PID::current())`, with
the caller's `current()` identifier passed as `me`. -/
def try_lock (pidOf : Nat → Int) (probe : Int → Option Nat)
    (me cell : Nat) : Bool × Nat :=
  try_lock_impl pidOf probe me cell

/-- `ProcessIdLock::unlock()`: `exchange(me, PID::null())` with `me =
PID::current()`; the returned flag is the asserted `released` value.
Returns (released, final cell value). -/
def unlock (me cell : Nat) : Bool × Nat :=
  let r := cas cell me 0
  (r.1, r.2.1)

set_option maxRecDepth 8000

/-! Shared arithmetic lemmas about the packed encodings. -/

theorem u32_lt (x : Int) : u32 x < 2 ^ 32 := by
  unfold u32; omega

theorem u64i_lt (x : Int) : u64i x < 2 ^ 64 := by
  unfold u64i; omega

theorem u64i_mod_u32 (x : Int) : u64i x % 2 ^ 32 = u32 x := by
  unfold u64i u32; omega

theorem u128i_mod_u64 (x : Int) : u128i x % 2 ^ 64 = u64i x := by
  unfold u128i u64i; omega

theorem or_low (a b n : Nat) (hb : b < 2 ^ n) : a * 2 ^ n ||| b = a * 2 ^ n + b := by
  rw [Nat.mul_comm]
  exact (Nat.mul_add_lt_is_or hb a).symm

theorem shl_mod (a k : Nat) : (a <<< k) % (2 ^ k * 2 ^ k) = a % 2 ^ k * 2 ^ k := by
  rw [Nat.shiftLeft_eq, Nat.mul_mod_mul_right]

/-- The 64-bit packed value in high-half/low-half form. -/
theorem value_from_u64_eq (pid : Int) (tv : Timeval) :
    value_from_u64 pid tv = u32 pid * 2 ^ 32 + u32 (tv.tv_sec - (epoch : Int)) := by
  unfold value_from_u64
  have h1 : (2 : Nat) ^ 64 = 2 ^ 32 * 2 ^ 32 := by norm_num
  rw [h1, shl_mod, u64i_mod_u32, or_low _ _ _ (u32_lt _)]

/-- The 128-bit packed value in high-half/low-half form. -/
theorem value_from_u128_eq (pid : Int) (tv : Timeval) :
    value_from_u128 pid tv =
      u64i pid * 2 ^ 64 + (1000000 * u64i tv.tv_sec + u64i tv.tv_usec) % 2 ^ 64 := by
  unfold value_from_u128
  have h1 : (2 : Nat) ^ 128 = 2 ^ 64 * 2 ^ 64 := by norm_num
  rw [h1, shl_mod, u128i_mod_u64, or_low]
  exact Nat.mod_lt _ (by norm_num)

/-- Re-encoding the reconstructed seconds value recovers the stored
low half (the `uint32` wrap-arounds of `start_time` and `value_from`
cancel). -/
theorem u32_rewrap (L : Nat) (hL : L < 2 ^ 32) :
    u32 ((((epoch + L) % 2 ^ 32 : Nat) : Int) - (epoch : Int)) = L := by
  unfold u32 epoch
  omega

theorem u64i_cast (m : Nat) (h : m < 2 ^ 64) : u64i (m : Int) = m := by
  unfold u64i; omega

/-- Round trip through `pid()`/`start_time()` for the 64-bit layout. -/
theorem roundtrip_u64 (pid : Int) (tv : Timeval) (h0 : 0 ≤ pid) (h1 : pid < 2 ^ 31) :
    pid_u64 (value_from_u64 pid tv) = pid ∧
    value_from_u64 (pid_u64 (value_from_u64 pid tv))
      (start_time_u64 (value_from_u64 pid tv)) = value_from_u64 pid tv := by
  have e := value_from_u64_eq pid tv
  have hL : u32 (tv.tv_sec - (epoch : Int)) < 2 ^ 32 := u32_lt _
  have hp : u32 pid = pid.toNat := by unfold u32; omega
  have hdiv : value_from_u64 pid tv >>> 32 = u32 pid := by
    rw [Nat.shiftRight_eq_div_pow, e]; omega
  have hpid : pid_u64 (value_from_u64 pid tv) = pid := by
    unfold pid_u64 toInt32
    rw [hdiv, hp]
    omega
  refine ⟨hpid, ?_⟩
  rw [hpid]
  have hmod : value_from_u64 pid tv % 2 ^ 32 = u32 (tv.tv_sec - (epoch : Int)) := by
    rw [e]; omega
  rw [value_from_u64_eq pid (start_time_u64 (value_from_u64 pid tv))]
  unfold start_time_u64
  rw [hmod, e]
  congr 1
  exact u32_rewrap _ hL

/-- Round trip through `pid()`/`start_time()` for the 128-bit layout. -/
theorem roundtrip_u128 (pid : Int) (tv : Timeval) (h0 : 0 ≤ pid) (h1 : pid < 2 ^ 31) :
    pid_u128 (value_from_u128 pid tv) = pid ∧
    value_from_u128 (pid_u128 (value_from_u128 pid tv))
      (start_time_u128 (value_from_u128 pid tv)) = value_from_u128 pid tv := by
  have e := value_from_u128_eq pid tv
  have hL : (1000000 * u64i tv.tv_sec + u64i tv.tv_usec) % 2 ^ 64 < 2 ^ 64 :=
    Nat.mod_lt _ (by norm_num)
  have hp : u64i pid = pid.toNat := by unfold u64i; omega
  have hdiv : value_from_u128 pid tv >>> 64 = u64i pid := by
    rw [Nat.shiftRight_eq_div_pow, e]; omega
  have hpid : pid_u128 (value_from_u128 pid tv) = pid := by
    unfold pid_u128 toInt32
    rw [hdiv, hp]
    omega
  refine ⟨hpid, ?_⟩
  rw [hpid]
  have hmod : value_from_u128 pid tv % 2 ^ 64 =
      (1000000 * u64i tv.tv_sec + u64i tv.tv_usec) % 2 ^ 64 := by
    rw [e]; omega
  rw [value_from_u128_eq pid (start_time_u128 (value_from_u128 pid tv))]
  unfold start_time_u128
  rw [hmod, e]
  congr 1
  rw [u64i_cast _ (by omega), u64i_cast _ (by omega)]
  omega

theorem nonnull_u64 (pid : Int) (tv : Timeval) (hlo : -(2 ^ 31) ≤ pid)
    (hhi : pid < 2 ^ 31) (hne : pid ≠ 0) :
    value_from_u64 pid tv ≠ ProcessId_null := by
  rw [value_from_u64_eq]
  unfold ProcessId_null
  have : u32 pid ≠ 0 := by unfold u32; omega
  omega

theorem nonnull_u128 (pid : Int) (tv : Timeval) (hlo : -(2 ^ 31) ≤ pid)
    (hhi : pid < 2 ^ 31) (hne : pid ≠ 0) :
    value_from_u128 pid tv ≠ ProcessId_null := by
  rw [value_from_u128_eq]
  unfold ProcessId_null
  have : u64i pid ≠ 0 := by unfold u64i; omega
  omega

/-- The 128-bit low half without wrap-around, for in-range timevals. -/
theorem encoding_u128 (pid : Int) (tv : Timeval) (hs : 0 ≤ tv.tv_sec)
    (hu : 0 ≤ tv.tv_usec) (hlow : 1000000 * tv.tv_sec + tv.tv_usec < 2 ^ 64) :
    value_from_u128 pid tv =
      u64i pid * 2 ^ 64 + (1000000 * tv.tv_sec + tv.tv_usec).toNat := by
  rw [value_from_u128_eq]
  have h1 : u64i tv.tv_sec = tv.tv_sec.toNat := by unfold u64i; omega
  have h2 : u64i tv.tv_usec = tv.tv_usec.toNat := by unfold u64i; omega
  rw [h1, h2]
  omega

/-! Claim theorems. -/

/-- C1, counterexample: the claim states that when the liveness probe
fails (`ProcessId::maybe` returns empty, e.g. permission denial) the
holder is treated as still alive, `try_lock` returns false and the
cell keeps the holder.  The code does the opposite: with holder 2,
caller 1 and a probe that returns nothing, `try_lock` returns true
and installs the caller, so the claimed outcome `(false, 2)` is
refuted. -/
theorem try_lock_probe_failure_claim_refuted :
    ¬ try_lock (fun _ => 0) (fun _ => (none : Option Nat)) 1 2 = (false, 2) := by
  decide

/-- C1, amended: when the liveness probe of the observed holder fails
(`ProcessId::maybe` returns empty, which covers permission denial),
`try_lock` treats the holder as dead, reclaims the cell, installs the
caller and returns true; no error is surfaced. -/
theorem try_lock_probe_failure_reclaims (pidOf : Nat → Int)
    (probe : Int → Option Nat) (me h : Nat) (hh : h ≠ 0) (hm : h ≠ me)
    (hp : probe (pidOf h) = none) :
    try_lock pidOf probe me h = (true, me) := by
  simp [try_lock, try_lock_impl, cas, hh, hm, hp]

theorem try_lock_probe_failure_reclaims_witness :
    try_lock (fun _ => 0) (fun _ => (none : Option Nat)) 1 2 = (true, 1) :=
  try_lock_probe_failure_reclaims (fun _ => 0) (fun _ => none) 1 2
    (by decide) (by decide) rfl

/-- C2: `try_lock` on a cell holding a different process `h`: when the
probe of `h.pid()` returns nothing or a value different from `h`, the
dead-holder path runs (best-effort compare-exchange from `h` to null,
then a fresh compare-exchange from null to the caller) and the call
returns the success of that second attempt — in the sequential
rendering it succeeds and the caller is installed; when the probe
returns exactly `h`, the call returns false and the cell is
unchanged. -/
theorem try_lock_contended_cases (pidOf : Nat → Int)
    (probe : Int → Option Nat) (me h : Nat) (hh : h ≠ 0) (hm : h ≠ me) :
    (probe (pidOf h) ≠ some h → try_lock pidOf probe me h = (true, me)) ∧
    (probe (pidOf h) = some h → try_lock pidOf probe me h = (false, h)) := by
  constructor
  · intro hp
    simp [try_lock, try_lock_impl, cas, hh, hm, hp]
  · intro hp
    simp [try_lock, try_lock_impl, cas, hh, hm, hp]

theorem try_lock_contended_cases_witness :
    try_lock (fun _ => 0) (fun _ => (some 2 : Option Nat)) 1 2 = (false, 2) :=
  (try_lock_contended_cases (fun _ => 0) (fun _ => some 2) 1 2
    (by decide) (by decide)).2 rfl

/-- C3: single-process cycle on a freshly zero-initialized lock with a
non-null caller identifier `me`: `try_lock` succeeds and stores `me`;
an immediate second `try_lock` observes `me` as holder and returns
false leaving the cell unchanged; `unlock` restores the null value;
a further `try_lock` succeeds again. -/
theorem single_process_lock_cycle (pidOf : Nat → Int)
    (probe : Int → Option Nat) (me : Nat) (hme : me ≠ ProcessId_null) :
    try_lock pidOf probe me ProcessId_null = (true, me) ∧
    try_lock pidOf probe me me = (false, me) ∧
    unlock me me = (true, ProcessId_null) ∧
    try_lock pidOf probe me ProcessId_null = (true, me) := by
  have hme0 : me ≠ 0 := hme
  refine ⟨?_, ?_, ?_, ?_⟩
  · simp [try_lock, try_lock_impl, cas, ProcessId_null]
  · simp [try_lock, try_lock_impl, cas, hme0]
  · simp [unlock, cas, ProcessId_null]
  · simp [try_lock, try_lock_impl, cas, ProcessId_null]

theorem single_process_lock_cycle_witness :
    try_lock (fun _ => 0) (fun _ => (none : Option Nat)) 1 ProcessId_null = (true, 1) ∧
    try_lock (fun _ => 0) (fun _ => (none : Option Nat)) 1 1 = (false, 1) ∧
    unlock 1 1 = (true, ProcessId_null) ∧
    try_lock (fun _ => 0) (fun _ => (none : Option Nat)) 1 ProcessId_null = (true, 1) :=
  single_process_lock_cycle (fun _ => 0) (fun _ => none) 1 (by decide)

/-- C4: the claim says `store` accepts every order in {relaxed,
release, seq_cst} for every supported type; the code's
non-fundamental branch instead asserts order ∈ {relaxed, acquire,
consume, seq_cst} (the `load` list), so for a supported
non-fundamental `T` (such as `ProcessId`) a release store fires the
assertion, while acquire and consume — illegal for a store — are
accepted; the fundamental branch matches the documentation.  This
contradicts the `@pre` documented on `store` itself. -/
theorem store_ordering_assertion_bug :
    Atomic_store false 42 MemoryOrder.release = none ∧
    Atomic_store true 42 MemoryOrder.release = some 42 ∧
    Atomic_store false 42 MemoryOrder.acquire = some 42 ∧
    Atomic_store false 42 MemoryOrder.consume = some 42 := by
  decide

/-- C5: for a non-negative pid representable in the high half, the
two-argument constructor round-trips through `pid()`/`start_time()`
at both widths, and `pid()` projects the pid back out. -/
theorem processid_roundtrip (pid : Int) (tv : Timeval) (h0 : 0 ≤ pid)
    (h1 : pid < 2 ^ 31) :
    (value_from_u64 (pid_u64 (value_from_u64 pid tv))
        (start_time_u64 (value_from_u64 pid tv)) = value_from_u64 pid tv ∧
      pid_u64 (value_from_u64 pid tv) = pid) ∧
    (value_from_u128 (pid_u128 (value_from_u128 pid tv))
        (start_time_u128 (value_from_u128 pid tv)) = value_from_u128 pid tv ∧
      pid_u128 (value_from_u128 pid tv) = pid) := by
  obtain ⟨a64, b64⟩ := roundtrip_u64 pid tv h0 h1
  obtain ⟨a128, b128⟩ := roundtrip_u128 pid tv h0 h1
  exact ⟨⟨b64, a64⟩, ⟨b128, a128⟩⟩

theorem processid_roundtrip_witness :
    value_from_u64 (pid_u64 (value_from_u64 3 (Timeval.mk (-5) 99)))
        (start_time_u64 (value_from_u64 3 (Timeval.mk (-5) 99))) =
      value_from_u64 3 (Timeval.mk (-5) 99) ∧
    pid_u64 (value_from_u64 3 (Timeval.mk (-5) 99)) = 3 :=
  (processid_roundtrip 3 (Timeval.mk (-5) 99) (by decide) (by decide)).1

/-- C6: the packed value follows the width-dependent encoding: the
high half is the pid widened to W bits; for W = 32 the low half is
`tv_sec - epoch` truncated to 32 bits with microseconds discarded and
`start_time()` reconstructs a timeval with zero microseconds; for
W = 64 the low half is `tv_sec * 1_000_000 + tv_usec` (stated for
values that fit in the 64-bit low half, where the `uint64` arithmetic
does not wrap). -/
theorem processid_encoding_shape (pid : Int) (tv : Timeval) :
    value_from_u64 pid tv = u32 pid * 2 ^ 32 + u32 (tv.tv_sec - (epoch : Int)) ∧
    (∀ v : Nat, (start_time_u64 v).tv_usec = 0) ∧
    (0 ≤ tv.tv_sec → 0 ≤ tv.tv_usec →
      1000000 * tv.tv_sec + tv.tv_usec < 2 ^ 64 →
      value_from_u128 pid tv =
        u64i pid * 2 ^ 64 + (1000000 * tv.tv_sec + tv.tv_usec).toNat) :=
  ⟨value_from_u64_eq pid tv, fun _ => rfl,
    fun hs hu hlow => encoding_u128 pid tv hs hu hlow⟩

theorem processid_encoding_shape_witness :
    value_from_u128 5 (Timeval.mk 10 7) =
      u64i 5 * 2 ^ 64 + (1000000 * 10 + 7 : Int).toNat :=
  (processid_encoding_shape 5 (Timeval.mk 10 7)).2.2 (by decide) (by decide)
    (by decide)

/-- C7: when the start-time lookup fails, `ProcessId::maybe` is empty
(and total, hence never throws) while the bare-PID constructor
produces an error whose message contains the offending pid and, when
errno is set, the system error text; when the lookup succeeds both
are populated with the same packed value; the two surface the same
lookup outcome. -/
theorem lookup_error_surface (enc : Int → Timeval → Nat)
    (st : Int → Option Timeval) (errno : Option String) (pid : Int) :
    (st pid = none →
      ProcessId_maybe enc st pid = none ∧
      ∃ msg, ProcessId_ctor enc st errno pid = Except.error msg ∧
        (∃ a b, msg = a ++ toString pid ++ b) ∧
        ∀ e, errno = some e → ∃ a b, msg = a ++ e ++ b) ∧
    (∀ tv, st pid = some tv →
      ProcessId_maybe enc st pid = some (enc pid tv) ∧
      ProcessId_ctor enc st errno pid = Except.ok (enc pid tv)) ∧
    ((∃ v, ProcessId_maybe enc st pid = some v) ↔
      ∃ v, ProcessId_ctor enc st errno pid = Except.ok v) := by
  refine ⟨?_, ?_, ?_⟩
  · intro hnone
    refine ⟨by simp [ProcessId_maybe, hnone], ?_⟩
    cases errno with
    | none =>
      refine ⟨_, by simp [ProcessId_ctor, value_from_or_error, hnone],
        ⟨"can\x27t get process start time: pid=", "", rfl⟩, ?_⟩
      intro e he
      cases he
    | some err =>
      refine ⟨_, by simp [ProcessId_ctor, value_from_or_error, hnone],
        ⟨"can\x27t get process start time: pid=", ": " ++ err, rfl⟩, ?_⟩
      intro e he
      cases he
      refine ⟨"can\x27t get process start time: pid=" ++ (toString pid ++ ": "), "", ?_⟩
      simp [String.append_assoc]
  · intro tv htv
    exact ⟨by simp [ProcessId_maybe, htv],
      by simp [ProcessId_ctor, value_from_or_error, htv]⟩
  · cases hst : st pid with
    | none => simp [ProcessId_maybe, ProcessId_ctor, value_from_or_error, hst]
    | some tv => simp [ProcessId_maybe, ProcessId_ctor, value_from_or_error, hst]

theorem lookup_error_surface_witness :
    ProcessId_maybe (fun _ _ => 0) (fun _ => none) 42 = none ∧
    ∃ msg, ProcessId_ctor (fun _ _ => 0) (fun _ => none)
        (some "permission denied") 42 = Except.error msg ∧
      (∃ a b, msg = a ++ toString (42 : Int) ++ b) ∧
      ∀ e, (some "permission denied" : Option String) = some e →
        ∃ a b, msg = a ++ e ++ b :=
  (lookup_error_surface (fun _ _ => 0) (fun _ => none)
    (some "permission denied") 42).1 rfl

/-- C8: no valid (pid, start-time) pair with a nonzero pid collides
with the null identifier at either width. -/
theorem processid_never_null (pid : Int) (tv : Timeval)
    (hlo : -(2 ^ 31) ≤ pid) (hhi : pid < 2 ^ 31) (hne : pid ≠ 0) :
    value_from_u64 pid tv ≠ ProcessId_null ∧
    value_from_u128 pid tv ≠ ProcessId_null :=
  ⟨nonnull_u64 pid tv hlo hhi hne, nonnull_u128 pid tv hlo hhi hne⟩

theorem processid_never_null_witness :
    value_from_u64 1 (Timeval.mk 0 0) ≠ ProcessId_null ∧
    value_from_u128 1 (Timeval.mk 0 0) ≠ ProcessId_null :=
  processid_never_null 1 (Timeval.mk 0 0) (by decide) (by decide) (by decide)

/-- C9: the Linux probe reads exactly field #3 (state) and field #22
(start ticks) of `/proc/<pid>/stat` — the scan result depends only on
those two fields — and a Zombie or Dead state yields no start-time,
so `ProcessId::maybe` on such a pid is empty and the bare-PID
constructor errors. -/
theorem stat_probe_zombie_dead (fields : List String) (hz? : Option Nat)
    (boot : Int) (state : Char) (ticks : Nat)
    (hscan : scan_stat fields = some (state, ticks))
    (hdead : state = 'Z' ∨ state = 'X' ∨ state = 'x') :
    start_time_of_stat fields hz? boot = none ∧
    (∀ fields2 : List String, fields2[2]? = fields[2]? →
      fields2[21]? = fields[21]? → scan_stat fields2 = scan_stat fields) ∧
    ∀ (enc : Int → Timeval → Nat) (errno : Option String) (pid : Int),
      ProcessId_maybe enc (fun _ => start_time_of_stat fields hz? boot) pid = none ∧
      ∃ msg, ProcessId_ctor enc (fun _ => start_time_of_stat fields hz? boot)
        errno pid = Except.error msg := by
  have hnone : start_time_of_stat fields hz? boot = none := by
    unfold start_time_of_stat
    rw [hscan]
    simp [hdead]
  refine ⟨hnone, ?_, ?_⟩
  · intro fields2 h2 h21
    unfold scan_stat
    rw [h2, h21]
  · intro enc errno pid
    refine ⟨by simp [ProcessId_maybe, hnone], ?_⟩
    simp only [ProcessId_ctor, hnone, value_from_or_error]
    exact ⟨_, rfl⟩

theorem stat_probe_zombie_dead_witness :
    start_time_of_stat
      ["1", "(x)", "Z", "0", "0", "0", "0", "0", "0", "0", "0", "0", "0",
        "0", "0", "0", "0", "0", "0", "0", "0", "123"] (some 100) 1700000000 =
      none :=
  (stat_probe_zombie_dead
    ["1", "(x)", "Z", "0", "0", "0", "0", "0", "0", "0", "0", "0", "0",
      "0", "0", "0", "0", "0", "0", "0", "0", "123"] (some 100) 1700000000
    'Z' 123 rfl (Or.inl rfl)).1

/-- C10: `unlock` releases only via a compare-exchange from the
caller's identifier to null: when the cell does not hold the caller's
identifier, the cell is left unchanged and the asserted `released`
flag is false (the debug assertion fires). -/
theorem unlock_requires_ownership (me cell : Nat) (h : cell ≠ me) :
    unlock me cell = (false, cell) := by
  simp [unlock, cas, h]

theorem unlock_requires_ownership_witness : unlock 1 2 = (false, 2) :=
  unlock_requires_ownership 1 2 (by decide)

end WjhIpc
